import Mathlib

/-!
Shallow embedding of `src/rag_engine.py` (class `RAGEngine`) and proofs about
the spec's claims over it.

External collaborators (langchain loaders, the embedding provider, FAISS) are
modelled as parameters: a loader oracle `lf : String → Except Unit (List Doc)`
(one outcome per file), a failure oracle `fails : Nat → Nat → Bool` telling
whether the embedding/indexing call for the batch starting at chunk index `i`
fails on attempt `a` (0 = first try, 1 = retry), an abstract chunker
`splitter : List Doc → List Doc` (RecursiveCharacterTextSplitter), and an
abstract distance `dist : String → Doc → Rat` (query embedding + FAISS metric).
FAISS `similarity_search_with_score` is modelled per its contract: the stored
documents sorted by ascending distance (stable in insertion order), truncated
to `k`.
-/

namespace RagSpec

/-- A value stored in a langchain `Document.metadata` dict. -/
inductive MetaVal : Type
  | str (s : String)
  | int (n : Int)
deriving DecidableEq

/-- A langchain `Document`: page text plus a metadata dict
(modelled as an association list). -/
structure Doc : Type where
  page_content : String
  metadata : List (String × MetaVal)
deriving DecidableEq

/-- Python `dict.get(key, default)` on the metadata dict. -/
def metaGet (m : List (String × MetaVal)) (key : String) (dflt : MetaVal) : MetaVal :=
  (m.lookup key).getD dflt

/-- The extension part of Python `os.path.splitext(filename)[1]` for a plain
basename (no directory separators, as produced by `os.listdir`): the suffix
from the last dot, except that a name whose characters before that dot are all
dots has no extension. -/
def splitextExt (s : String) : String :=
  let cs := s.toList
  match ((List.range cs.length).filter (fun i => cs.getD i ' ' = '.')).getLast? with
  | none => ""
  | some i => if (cs.take i).all (fun c => c = '.') then "" else String.mk (cs.drop i)

/-- `os.path.splitext(filename)[1].lower()` from `load_documents`, line 29
(lower-casing applied per character; extensions are ASCII here). -/
def fileExtLower (filename : String) : String :=
  String.mk ((splitextExt filename).toList.map Char.toLower)

/-- Membership of the extension in the `loaders` dict
`{'.pdf': PyPDFLoader, '.txt': TextLoader, '.docx': Docx2txtLoader}` (line 25/30). -/
def isSupported (filename : String) : Bool :=
  [".pdf", ".txt", ".docx"].contains (fileExtLower filename)

/-- One iteration of the per-file loop of `load_documents` (lines 27-38):
unsupported extensions are skipped, a loader exception is caught and the
accumulator is left unchanged, a successful load appends the file's pages and
bumps `file_count`. -/
def loadStep (lf : String → Except Unit (List Doc)) (acc : List Doc × Nat)
    (filename : String) : List Doc × Nat :=
  if isSupported filename then
    match lf filename with
    | Except.ok docs => (acc.1 ++ docs, acc.2 + 1)
    | Except.error _ => acc
  else acc

/-- The per-file loop of `load_documents`: `(all_documents, file_count)`
after iterating over `os.listdir(self.documents_folder)`. -/
def load_files (lf : String → Except Unit (List Doc)) (entries : List String) :
    List Doc × Nat :=
  entries.foldl (loadStep lf) ([], 0)

/-- Observable events of the batching loop: an `add` for each successful
`FAISS.from_documents` / `add_documents` call, and a `sleep` for each
`time.sleep` (2 = cool-down, 10 = back-off). -/
inductive BuildEvent (α : Type) : Type
  | add (batch : List α)
  | sleep (seconds : Nat)
deriving DecidableEq

/-- Project the batch out of an `add` event. -/
def BuildEvent.addBatch? {α : Type} : BuildEvent α → Option (List α)
  | BuildEvent.add b => some b
  | BuildEvent.sleep _ => none

/-- `batch_size = 50` (line 55). -/
def batch_size : Nat := 50

/-- `chunks[i : i + batch_size]` (line 59). -/
def batchAt {α : Type} (chunks : List α) (i : Nat) : List α :=
  (chunks.drop i).take batch_size

/-- The batching loop of `load_documents` (lines 58-80), run over the list of
start offsets produced by `range(0, len(chunks), batch_size)`. State: the
vectorstore (`none` before the first `FAISS.from_documents`) and the event
trace. A first-attempt failure sleeps 10 seconds and retries once; a failure
of the retry is not caught and propagates (`Except.error`), carrying the
vectorstore built so far. On a first-attempt success, the cool-down
`time.sleep(2)` runs only when `i + batch_size < len(chunks)` (line 69); the
retry path has no cool-down. -/
def runBatches {α : Type} (fails : Nat → Nat → Bool) (chunks : List α) :
    List Nat → Option (List α) → List (BuildEvent α) →
    Except (Option (List α) × List (BuildEvent α)) (Option (List α) × List (BuildEvent α))
  | [], vs, tr => Except.ok (vs, tr)
  | i :: rest, vs, tr =>
    if fails i 0 = false then
      runBatches fails chunks rest (some (vs.getD [] ++ batchAt chunks i))
        (tr ++ BuildEvent.add (batchAt chunks i) ::
          (if i + batch_size < chunks.length then [BuildEvent.sleep 2] else []))
    else
      if fails i 1 = false then
        runBatches fails chunks rest (some (vs.getD [] ++ batchAt chunks i))
          (tr ++ [BuildEvent.sleep 10, BuildEvent.add (batchAt chunks i)])
      else
        Except.error (vs, tr ++ [BuildEvent.sleep 10])

/-- Python `range(0, stop, batch_size)` as a list of start offsets. -/
def pyRange (stop : Nat) : List Nat :=
  List.range' 0 ((stop + batch_size - 1) / batch_size) batch_size

/-- The whole batching stage of `load_documents` starting from
`self.vectorstore = None` (line 56). -/
def buildIndex {α : Type} (fails : Nat → Nat → Bool) (chunks : List α) :
    Except (Option (List α) × List (BuildEvent α)) (Option (List α) × List (BuildEvent α)) :=
  runBatches fails chunks (pyRange chunks.length) none []

/-- The batches the loop submits, in order. -/
def batches {α : Type} (chunks : List α) : List (List α) :=
  (pyRange chunks.length).map (batchAt chunks)

/-- Engine state: the constructor argument and `self.vectorstore`
(the indexed documents in insertion order, `none` when no index was built). -/
structure RAGEngine : Type where
  documents_folder : String
  vectorstore : Option (List Doc)
deriving DecidableEq

/-- `RAGEngine.load_documents` (lines 21-82): run the per-file loop; when
`file_count == 0` return early with the vectorstore still `None`; otherwise
chunk the loaded pages and run the batching stage, propagating an uncaught
retry failure. -/
def load_documents (fails : Nat → Nat → Bool) (lf : String → Except Unit (List Doc))
    (splitter : List Doc → List Doc) (entries : List String) :
    Except (Option (List Doc) × List (BuildEvent Doc)) (Option (List Doc)) :=
  let loaded := load_files lf entries
  if loaded.2 = 0 then Except.ok none
  else
    match buildIndex fails (splitter loaded.1) with
    | Except.ok r => Except.ok r.1
    | Except.error e => Except.error e

/-- `RAGEngine.__init__` (lines 10-19): when the documents folder does not
exist it is created empty (`os.makedirs`), so the subsequent `os.listdir`
yields no entries; then `load_documents` runs. -/
def initEngine (folderExists : Bool) (entries : List String)
    (fails : Nat → Nat → Bool) (lf : String → Except Unit (List Doc))
    (splitter : List Doc → List Doc) (folder : String) :
    Except (Option (List Doc) × List (BuildEvent Doc)) RAGEngine :=
  let entries' := if folderExists then entries else []
  match load_documents fails lf splitter entries' with
  | Except.ok vs => Except.ok ⟨folder, vs⟩
  | Except.error e => Except.error e

/-- One search result of `RAGEngine.search` (lines 87-88): the four fields
`content`, `source`, `page`, `score`. -/
structure SearchResult : Type where
  content : String
  source : MetaVal
  page : MetaVal
  score : Rat
deriving DecidableEq

/-- FAISS `similarity_search_with_score(query, k)` modelled per its contract:
all stored documents paired with their distance to the query, stably sorted by
ascending distance, truncated to the `k` nearest. -/
def similarity_search_with_score (dist : String → Doc → Rat) (docs : List Doc)
    (query : String) (k : Nat) : List (Doc × Rat) :=
  ((docs.map (fun d => (d, dist query d))).mergeSort
      (fun p₁ p₂ => decide (p₁.2 ≤ p₂.2))).take k

/-- `RAGEngine.search` (lines 84-88): empty result when `self.vectorstore` is
unset; otherwise one result dict per returned neighbor, with
`metadata.get('source', 'Unknown')`, `metadata.get('page', 'N/A')`, and the
raw distance as `score` (Python's `float(score)` is the identity on the
numeric value, modelled on `Rat`). -/
def search (dist : String → Doc → Rat) (e : RAGEngine) (query : String)
    (k : optParam Nat 3) : List SearchResult :=
  match e.vectorstore with
  | none => []
  | some docs =>
    (similarity_search_with_score dist docs query k).map (fun p =>
      ⟨p.1.page_content,
       metaGet p.1.metadata "source" (MetaVal.str "Unknown"),
       metaGet p.1.metadata "page" (MetaVal.str "N/A"),
       p.2⟩)

/-- Python `str(...)` of a metadata value, as used by the f-string in
`get_context_for_question`. -/
def mvToString : MetaVal → String
  | MetaVal.str s => s
  | MetaVal.int n => toString n

/-- `os.path.basename` on a POSIX path. -/
def pyBasename (s : String) : String :=
  (s.splitOn "/").getLastD s

/-- The f-string of line 94 for one `(index, result)` pair of
`enumerate(results, 1)`. -/
def formatOne (p : Nat × SearchResult) : String :=
  "[Source " ++ toString p.1 ++ ": " ++ pyBasename (mvToString p.2.source) ++
    ", Page " ++ mvToString p.2.page ++ "]\n" ++ p.2.content ++ "\n"

/-- `RAGEngine.get_context_for_question` (lines 90-95). -/
def get_context_for_question (dist : String → Doc → Rat) (e : RAGEngine)
    (question : String) (max_chunks : optParam Nat 3) : String :=
  match e.vectorstore with
  | none => "No rule documents loaded."
  | some _ =>
    let results := search dist e question max_chunks
    if results.isEmpty then "No relevant information found."
    else String.intercalate "\n" ((List.enumFrom 1 results).map formatOne)

/-- Vectorstore state after a run of first-attempt-successful batches starting
from `vs`. -/
def vsAfter {α : Type} (chunks : List α) (starts : List Nat) (vs : Option (List α)) :
    Option (List α) :=
  starts.foldl (fun v i => some (v.getD [] ++ batchAt chunks i)) vs

/-! Concrete fixtures used by witnesses and counterexamples. -/

/-- Failure oracle: the batch starting at chunk 0 fails its first attempt and
succeeds on the retry; every other call succeeds. -/
def c3fails : Nat → Nat → Bool := fun i a => decide (i = 0 ∧ a = 0)

/-- Failure oracle: the batch starting at chunk 50 fails both attempts. -/
def fails50 : Nat → Nat → Bool := fun i _ => decide (i = 50)

/-- A document with source and page metadata. -/
def dA : Doc := ⟨"alpha", [("source", MetaVal.str "docs/a.pdf"), ("page", MetaVal.int 1)]⟩

/-- A document with an empty metadata dict. -/
def dB : Doc := ⟨"beta", []⟩

/-- A loader oracle for which exactly `bad.pdf` raises. -/
def lf7 : String → Except Unit (List Doc) :=
  fun fn => if fn = "bad.pdf" then Except.error () else Except.ok [dB]

/-- A trivial distance oracle. -/
def dist0 : String → Doc → Rat := fun _ _ => 0

/-! Helper lemmas about the batching loop. -/

theorem runBatches_nil {α : Type} (fails : Nat → Nat → Bool) (chunks : List α)
    (vs : Option (List α)) (tr : List (BuildEvent α)) :
    runBatches fails chunks [] vs tr = Except.ok (vs, tr) := rfl

theorem runBatches_ok_first {α : Type} (fails : Nat → Nat → Bool) (chunks : List α)
    (i : Nat) (rest : List Nat) (vs : Option (List α)) (tr : List (BuildEvent α))
    (h : fails i 0 = false) :
    runBatches fails chunks (i :: rest) vs tr
      = runBatches fails chunks rest (some (vs.getD [] ++ batchAt chunks i))
          (tr ++ BuildEvent.add (batchAt chunks i) ::
            (if i + batch_size < chunks.length then [BuildEvent.sleep 2] else [])) := by
  simp [runBatches, h]

theorem runBatches_retry {α : Type} (fails : Nat → Nat → Bool) (chunks : List α)
    (i : Nat) (rest : List Nat) (vs : Option (List α)) (tr : List (BuildEvent α))
    (h0 : fails i 0 = true) (h1 : fails i 1 = false) :
    runBatches fails chunks (i :: rest) vs tr
      = runBatches fails chunks rest (some (vs.getD [] ++ batchAt chunks i))
          (tr ++ [BuildEvent.sleep 10, BuildEvent.add (batchAt chunks i)]) := by
  simp [runBatches, h0, h1]

theorem runBatches_fatal {α : Type} (fails : Nat → Nat → Bool) (chunks : List α)
    (i : Nat) (rest : List Nat) (vs : Option (List α)) (tr : List (BuildEvent α))
    (h0 : fails i 0 = true) (h1 : fails i 1 = true) :
    runBatches fails chunks (i :: rest) vs tr
      = Except.error (vs, tr ++ [BuildEvent.sleep 10]) := by
  simp [runBatches, h0, h1]

theorem vsAfter_cons {α : Type} (chunks : List α) (i : Nat) (starts : List Nat)
    (vs : Option (List α)) :
    vsAfter chunks (i :: starts) vs
      = vsAfter chunks starts (some (vs.getD [] ++ batchAt chunks i)) := rfl

theorem vsAfter_getD {α : Type} (chunks : List α) :
    ∀ (starts : List Nat) (vs : Option (List α)),
      (vsAfter chunks starts vs).getD []
        = vs.getD [] ++ (starts.map (batchAt chunks)).flatten := by
  intro starts
  induction starts with
  | nil => intro vs; simp [vsAfter]
  | cons i starts ih =>
    intro vs
    rw [vsAfter_cons, ih]
    simp

/-- A run of batches that all succeed on their first attempt just extends the
vectorstore batch by batch, and its `add` events are exactly those batches. -/
theorem runBatches_seg {α : Type} (fails : Nat → Nat → Bool) (chunks : List α) :
    ∀ (starts rest : List Nat) (vs : Option (List α)) (tr : List (BuildEvent α)),
      (∀ i ∈ starts, fails i 0 = false) →
      ∃ tr', runBatches fails chunks (starts ++ rest) vs tr
              = runBatches fails chunks rest (vsAfter chunks starts vs) (tr ++ tr')
        ∧ tr'.filterMap BuildEvent.addBatch? = starts.map (batchAt chunks) := by
  intro starts
  induction starts with
  | nil =>
    intro rest vs tr _
    exact ⟨[], by simp [vsAfter], by simp⟩
  | cons i starts ih =>
    intro rest vs tr h
    have hi : fails i 0 = false := h i (by simp)
    have hrest : ∀ j ∈ starts, fails j 0 = false := fun j hj => h j (by simp [hj])
    obtain ⟨tr', heq, hadd⟩ := ih rest (some (vs.getD [] ++ batchAt chunks i))
      (tr ++ BuildEvent.add (batchAt chunks i) ::
        (if i + batch_size < chunks.length then [BuildEvent.sleep 2] else [])) hrest
    refine ⟨(BuildEvent.add (batchAt chunks i) ::
        (if i + batch_size < chunks.length then [BuildEvent.sleep 2] else [])) ++ tr',
      ?_, ?_⟩
    · rw [List.cons_append, runBatches_ok_first fails chunks i (starts ++ rest) vs tr hi,
        heq, vsAfter_cons, ← List.append_assoc]
    · rw [List.filterMap_append, hadd, List.map_cons]
      split <;> simp [BuildEvent.addBatch?]

/-- Flattening the loop's batches over a `range'` of start offsets recovers the
corresponding span of the chunk list. -/
theorem flatten_batches_range' {α : Type} (chunks : List α) :
    ∀ (m i : Nat),
      ((List.range' i m batch_size).map (batchAt chunks)).flatten
        = (chunks.drop i).take (batch_size * m) := by
  intro m
  induction m with
  | zero => intro i; simp
  | succ m ih =>
    intro i
    rw [List.range'_succ, List.map_cons, List.flatten_cons, ih (i + batch_size)]
    rw [batchAt, ← List.drop_drop, Nat.mul_succ, Nat.add_comm (batch_size * m) batch_size,
      List.take_add]

/-- The loop's batches are consecutive and cover the chunk sequence exactly. -/
theorem batches_flatten {α : Type} (chunks : List α) :
    (batches chunks).flatten = chunks := by
  rw [batches, pyRange, flatten_batches_range', List.drop_zero]
  apply List.take_of_length_le
  have hb : batch_size = 50 := rfl
  rw [hb]
  omega

theorem mem_pyRange_lt {n j : Nat} (h : j ∈ pyRange n) : j < n := by
  rw [pyRange, List.mem_range'] at h
  obtain ⟨t, ht, rfl⟩ := h
  have hb : batch_size = 50 := rfl
  rw [hb] at ht ⊢
  omega

theorem batchAt_ne_nil {α : Type} {chunks : List α} {i : Nat} (h : i < chunks.length) :
    batchAt chunks i ≠ [] := by
  rw [← List.length_pos, batchAt, List.length_take, List.length_drop]
  have hb : batch_size = 50 := rfl
  rw [hb]
  omega

theorem batchAt_length_le {α : Type} (chunks : List α) (i : Nat) :
    (batchAt chunks i).length ≤ batch_size :=
  List.length_take_le _ _

theorem batchAt_length_eq {α : Type} {chunks : List α} {i : Nat}
    (h : i + batch_size ≤ chunks.length) :
    (batchAt chunks i).length = batch_size := by
  rw [batchAt, List.length_take, List.length_drop]
  exact min_eq_left (by omega)

/-- Every batch of the loop except the last has exactly `batch_size` chunks. -/
theorem batches_dropLast_length {α : Type} (chunks : List α) :
    ∀ b ∈ (batches chunks).dropLast, b.length = batch_size := by
  rw [batches, pyRange]
  rcases hm : (chunks.length + batch_size - 1) / batch_size with _ | m
  · simp
  · rw [List.range'_concat, List.map_append, List.map_singleton, List.dropLast_concat]
    intro b hb
    rw [List.mem_map] at hb
    obtain ⟨j, hj, rfl⟩ := hb
    rw [List.mem_range'] at hj
    obtain ⟨t, ht, rfl⟩ := hj
    apply batchAt_length_eq
    have hb50 : batch_size = 50 := rfl
    rw [hb50] at hm ⊢
    omega

/-! The claims. -/

/-- C1: in the batching loop of `RAGEngine.load_documents`, a batch whose
embedding/indexing call fails waits the 10-second back-off and is retried
exactly once; a failure of the retry is fatal — the loop stops immediately
(no further retries of that batch, no later batches) and the error
propagates, with the vectorstore left exactly as it was before the failing
batch, so the batches already indexed are retained rather than discarded.
When the failing batch is preceded by a failure-free run, the retained state
is precisely the concatenation of those earlier batches; and a build error
propagates out of `load_documents` unchanged. -/
theorem c1_retry_once_then_fatal {α : Type} (chunks : List α) (fails : Nat → Nat → Bool)
    (i : Nat) (rest : List Nat) (vs : Option (List α)) (tr : List (BuildEvent α))
    (h0 : fails i 0 = true) :
    (fails i 1 = true →
       runBatches fails chunks (i :: rest) vs tr
         = Except.error (vs, tr ++ [BuildEvent.sleep 10]))
    ∧ (fails i 1 = false →
       runBatches fails chunks (i :: rest) vs tr
         = runBatches fails chunks rest (some (vs.getD [] ++ batchAt chunks i))
             (tr ++ [BuildEvent.sleep 10, BuildEvent.add (batchAt chunks i)]))
    ∧ (∀ starts₁ : List Nat, fails i 1 = true →
        pyRange chunks.length = starts₁ ++ i :: rest →
        (∀ j ∈ starts₁, fails j 0 = false) →
        ∃ tr', buildIndex fails chunks
                = Except.error (vsAfter chunks starts₁ none, tr')
          ∧ (vsAfter chunks starts₁ none).getD []
              = (starts₁.map (batchAt chunks)).flatten)
    ∧ (∀ (fd : Nat → Nat → Bool) (lf : String → Except Unit (List Doc))
         (splitter : List Doc → List Doc) (entries : List String)
         (err : Option (List Doc) × List (BuildEvent Doc)),
        buildIndex fd (splitter (load_files lf entries).1) = Except.error err →
        (load_files lf entries).2 ≠ 0 →
        load_documents fd lf splitter entries = Except.error err) := by
  refine ⟨fun h1 => runBatches_fatal _ _ _ _ _ _ h0 h1,
    fun h1 => runBatches_retry _ _ _ _ _ _ h0 h1, ?_, ?_⟩
  · intro starts₁ h1 hpy hprev
    obtain ⟨tr', heq, -⟩ := runBatches_seg fails chunks starts₁ (i :: rest) none [] hprev
    refine ⟨tr' ++ [BuildEvent.sleep 10], ?_, ?_⟩
    · rw [buildIndex, hpy, heq, runBatches_fatal _ _ _ _ _ _ h0 h1, List.nil_append]
    · rw [vsAfter_getD]
      simp
  · intro fd lf splitter entries err hbuild hcnt
    simp only [load_documents]
    rw [if_neg hcnt, hbuild]

/-- Witness for C1: with 51 chunks and both attempts of the second batch
(start offset 50) failing, the loop step at that batch back-offs 10 seconds
and errors out, retaining the 50 chunks already indexed. -/
theorem c1_witness :
    runBatches fails50 (List.range 51) (50 :: []) (some (List.range 50))
        [BuildEvent.add (List.range 50)]
      = Except.error (some (List.range 50),
          [BuildEvent.add (List.range 50), BuildEvent.sleep 10]) :=
  (c1_retry_once_then_fatal (List.range 51) fails50 50 []
      (some (List.range 50)) [BuildEvent.add (List.range 50)] (by decide)).1 (by decide)

/-- C2: the builder partitions the chunk sequence into consecutive batches of
`batch_size = 50` (the last possibly smaller): the batches are nonempty, of
length at most 50, all but the last of length exactly 50, and flatten back to
the chunk sequence — disjoint, covering every chunk exactly once. Absent
failures the build succeeds, the `add` events are exactly those batches (no
chunk embedded twice), and the final index holds exactly the input chunk
sequence (count-preserving). -/
theorem c2_batches_partition {α : Type} (chunks : List α) (fails : Nat → Nat → Bool)
    (h : ∀ i a, fails i a = false) :
    (batches chunks).flatten = chunks
    ∧ (∀ b ∈ batches chunks, b ≠ [] ∧ b.length ≤ batch_size)
    ∧ (∀ b ∈ (batches chunks).dropLast, b.length = batch_size)
    ∧ ∃ vs tr, buildIndex fails chunks = Except.ok (vs, tr)
        ∧ vs.getD [] = chunks
        ∧ tr.filterMap BuildEvent.addBatch? = batches chunks := by
  refine ⟨batches_flatten chunks, ?_, batches_dropLast_length chunks, ?_⟩
  · intro b hb
    rw [batches, List.mem_map] at hb
    obtain ⟨j, hj, rfl⟩ := hb
    exact ⟨batchAt_ne_nil (mem_pyRange_lt hj), batchAt_length_le chunks j⟩
  · obtain ⟨tr', heq, hadd⟩ := runBatches_seg fails chunks (pyRange chunks.length) [] none []
      (fun j _ => h j 0)
    rw [List.append_nil] at heq
    refine ⟨vsAfter chunks (pyRange chunks.length) none, tr', ?_, ?_, hadd⟩
    · rw [buildIndex, heq, runBatches_nil, List.nil_append]
    · rw [vsAfter_getD]
      simpa using batches_flatten chunks

/-- Witness for C2 at 51 concrete chunks and an all-success failure oracle. -/
theorem c2_witness :
    (batches (List.range 51)).flatten = List.range 51
    ∧ (∀ b ∈ batches (List.range 51), b ≠ [] ∧ b.length ≤ batch_size)
    ∧ (∀ b ∈ (batches (List.range 51)).dropLast, b.length = batch_size)
    ∧ ∃ vs tr, buildIndex (fun _ _ => false) (List.range 51) = Except.ok (vs, tr)
        ∧ vs.getD [] = List.range 51
        ∧ tr.filterMap BuildEvent.addBatch? = batches (List.range 51) :=
  c2_batches_partition (List.range 51) (fun _ _ => false) (fun _ _ => rfl)

/-- C3 counterexample: with 51 chunks (two batches) and the first batch
succeeding only on its retry, the whole build finishes with no 2-second
cool-down event anywhere in its trace, although batch 0 is processed
successfully and is not the last batch (`0 + batch_size < 51`). The code's
cool-down `time.sleep(2)` sits inside the `try` block (line 69), so the
retry path of the `except` block (lines 76-80) never reaches it — refuting
the claim that every processed non-final batch, including one that succeeds
only on its retry attempt, is followed by the cool-down pause. -/
theorem c3_counterexample :
    buildIndex c3fails (List.range 51)
      = Except.ok (some (List.range 51),
          [BuildEvent.sleep 10, BuildEvent.add ((List.range 51).take 50),
           BuildEvent.add ((List.range 51).drop 50)])
    ∧ 0 + batch_size < (List.range 51).length
    ∧ ∀ e ∈ [BuildEvent.sleep 10, BuildEvent.add ((List.range 51).take 50),
           BuildEvent.add ((List.range 51).drop 50)], e ≠ BuildEvent.sleep 2 :=
  ⟨rfl, by decide, by decide⟩

/-- C3 (amended): after a batch whose first attempt succeeds, the builder
pauses 2 seconds exactly when that batch is not the last
(`i + batch_size < len(chunks)`); a batch that succeeds only on its retry
attempt is never followed by a cool-down pause — its step appends only the
10-second back-off and the add event before moving to the next batch. -/
theorem c3_cooldown_only_after_first_try_success {α : Type} (chunks : List α)
    (fails : Nat → Nat → Bool) (i : Nat) (rest : List Nat) (vs : Option (List α))
    (tr : List (BuildEvent α)) :
    (fails i 0 = false →
       runBatches fails chunks (i :: rest) vs tr
         = runBatches fails chunks rest (some (vs.getD [] ++ batchAt chunks i))
             (tr ++ BuildEvent.add (batchAt chunks i) ::
               (if i + batch_size < chunks.length then [BuildEvent.sleep 2] else [])))
    ∧ (fails i 0 = true → fails i 1 = false →
       runBatches fails chunks (i :: rest) vs tr
         = runBatches fails chunks rest (some (vs.getD [] ++ batchAt chunks i))
             (tr ++ [BuildEvent.sleep 10, BuildEvent.add (batchAt chunks i)])) :=
  ⟨runBatches_ok_first fails chunks i rest vs tr,
   runBatches_retry fails chunks i rest vs tr⟩

/-- Witness for the amended C3: the concrete retry-success step at batch 0 of
51 chunks appends no cool-down event. -/
theorem c3_amended_witness :
    runBatches c3fails (List.range 51) (0 :: [50]) none []
      = runBatches c3fails (List.range 51) [50] (some (batchAt (List.range 51) 0))
          [BuildEvent.sleep 10, BuildEvent.add (batchAt (List.range 51) 0)] :=
  (c3_cooldown_only_after_first_try_success (List.range 51) c3fails 0 [50] none []).2
    (by decide) (by decide)

/-! Helper lemmas about the loader and the retriever. -/

theorem loadStep_id (lf : String → Except Unit (List Doc)) (acc : List Doc × Nat)
    (fn : String) (h : isSupported fn = false ∨ lf fn = Except.error ()) :
    loadStep lf acc fn = acc := by
  rcases h with h | h
  · simp [loadStep, h]
  · simp [loadStep, h]

theorem foldl_loadStep_const (lf : String → Except Unit (List Doc)) :
    ∀ (entries : List String) (acc : List Doc × Nat),
      (∀ fn ∈ entries, isSupported fn = false) →
      entries.foldl (loadStep lf) acc = acc := by
  intro entries
  induction entries with
  | nil => simp
  | cons fn entries ih =>
    intro acc h
    rw [List.foldl_cons, loadStep_id lf acc fn (Or.inl (h fn (by simp)))]
    exact ih acc (fun g hg => h g (by simp [hg]))

theorem search_some (dist : String → Doc → Rat) (e : RAGEngine) (docs : List Doc)
    (query : String) (k : Nat) (h : e.vectorstore = some docs) :
    search dist e query k
      = (similarity_search_with_score dist docs query k).map (fun p =>
          ⟨p.1.page_content, metaGet p.1.metadata "source" (MetaVal.str "Unknown"),
           metaGet p.1.metadata "page" (MetaVal.str "N/A"), p.2⟩) := by
  simp only [search, h]

theorem sss_length (dist : String → Doc → Rat) (docs : List Doc) (query : String)
    (k : Nat) :
    (similarity_search_with_score dist docs query k).length = min k docs.length := by
  rw [similarity_search_with_score, List.length_take, List.length_mergeSort,
    List.length_map]

theorem sss_pairwise (dist : String → Doc → Rat) (docs : List Doc) (query : String)
    (k : Nat) :
    List.Pairwise (fun p₁ p₂ : Doc × Rat => p₁.2 ≤ p₂.2)
      (similarity_search_with_score dist docs query k) := by
  refine List.Pairwise.sublist (List.take_sublist _ _) ?_
  refine List.Pairwise.imp (fun h => decide_eq_true_iff.mp h) ?_
  exact List.sorted_mergeSort
    (fun a b c hab hbc => by
      rw [decide_eq_true_iff] at hab hbc ⊢
      exact le_trans hab hbc)
    (fun a b => by
      rcases le_total a.2 b.2 with h | h
      · simp [h]
      · simp [h])
    _

theorem sss_mem (dist : String → Doc → Rat) (docs : List Doc) (query : String)
    (k : Nat) :
    ∀ p ∈ similarity_search_with_score dist docs query k,
      p.1 ∈ docs ∧ p.2 = dist query p.1 := by
  intro p hp
  rw [similarity_search_with_score] at hp
  have hp₂ := List.take_subset _ _ hp
  rw [List.mem_mergeSort, List.mem_map] at hp₂
  obtain ⟨d, hd, rfl⟩ := hp₂
  exact ⟨hd, rfl⟩

/-- C4: `search` on an engine with no vector index returns the empty list for
every query and every `k`, and an engine constructed over a folder whose
entries are all unsupported (in particular an empty folder) is built
successfully with `vectorstore = None`, so all its searches return the empty
list. -/
theorem c4_search_without_index (dist : String → Doc → Rat) (entries : List String)
    (lf : String → Except Unit (List Doc)) (splitter : List Doc → List Doc)
    (fails : Nat → Nat → Bool) (folder : String)
    (hunsup : ∀ fn ∈ entries, isSupported fn = false) :
    (∀ e : RAGEngine, e.vectorstore = none →
       ∀ (query : String) (k : Nat), search dist e query k = [])
    ∧ ∃ e : RAGEngine, initEngine true entries fails lf splitter folder = Except.ok e
        ∧ e.vectorstore = none
        ∧ ∀ (query : String) (k : Nat), search dist e query k = [] := by
  have hnone : ∀ e : RAGEngine, e.vectorstore = none →
      ∀ (query : String) (k : Nat), search dist e query k = [] := by
    intro e he query k
    simp [search, he]
  refine ⟨hnone, ⟨folder, none⟩, ?_, rfl, hnone _ rfl⟩
  have hload : load_files lf entries = ([], 0) :=
    foldl_loadStep_const lf entries ([], 0) hunsup
  simp [initEngine, load_documents, hload]

/-- Witness for C4 over a folder with one unsupported-extension entry and one
extensionless entry. -/
theorem c4_witness :
    (∀ e : RAGEngine, e.vectorstore = none →
       ∀ (query : String) (k : Nat), search dist0 e query k = [])
    ∧ ∃ e : RAGEngine,
        initEngine true ["report.exe", "notes"] (fun _ _ => false)
            (fun _ => Except.ok []) id "rules_documents" = Except.ok e
        ∧ e.vectorstore = none
        ∧ ∀ (query : String) (k : Nat), search dist0 e query k = [] :=
  c4_search_without_index dist0 ["report.exe", "notes"] (fun _ => Except.ok []) id
    (fun _ _ => false) "rules_documents" (by decide)

/-- C5: on an engine whose index exists, `search(query, k)` returns at most
`k` results, sorted by non-decreasing distance score, and every result is the
four-field projection (content, source, page, score) of some indexed
document, its score being that document's distance to the query. -/
theorem c5_search_ranked (dist : String → Doc → Rat) (e : RAGEngine) (docs : List Doc)
    (query : String) (k : Nat) (h : e.vectorstore = some docs) :
    (search dist e query k).length ≤ k
    ∧ List.Sorted (fun r₁ r₂ : SearchResult => r₁.score ≤ r₂.score)
        (search dist e query k)
    ∧ ∀ r ∈ search dist e query k, ∃ d ∈ docs,
        r = ⟨d.page_content, metaGet d.metadata "source" (MetaVal.str "Unknown"),
             metaGet d.metadata "page" (MetaVal.str "N/A"), dist query d⟩ := by
  rw [search_some dist e docs query k h]
  refine ⟨?_, ?_, ?_⟩
  · rw [List.length_map, sss_length]
    exact min_le_left _ _
  · exact List.pairwise_map.mpr (sss_pairwise dist docs query k)
  · intro r hr
    rw [List.mem_map] at hr
    obtain ⟨p, hp, rfl⟩ := hr
    obtain ⟨hd, hs⟩ := sss_mem dist docs query k p hp
    exact ⟨p.1, hd, by rw [hs]⟩

/-- Witness for C5 on a one-document index. -/
theorem c5_witness :
    (search dist0 ⟨"rules_documents", some [dA]⟩ "gun" 1).length ≤ 1
    ∧ List.Sorted (fun r₁ r₂ : SearchResult => r₁.score ≤ r₂.score)
        (search dist0 ⟨"rules_documents", some [dA]⟩ "gun" 1)
    ∧ ∀ r ∈ search dist0 ⟨"rules_documents", some [dA]⟩ "gun" 1, ∃ d ∈ [dA],
        r = ⟨d.page_content, metaGet d.metadata "source" (MetaVal.str "Unknown"),
             metaGet d.metadata "page" (MetaVal.str "N/A"), dist0 "gun" d⟩ :=
  c5_search_ranked dist0 ⟨"rules_documents", some [dA]⟩ [dA] "gun" 1 rfl

/-- C6: when the index exists but the search yields zero results,
`get_context_for_question` returns the fixed non-empty sentinel
`"No relevant information found."`, which differs from the
`"No rule documents loaded."` string returned when no index exists; the
context is capped at `max_chunks` results, whose default is 3. -/
theorem c6_sentinel (dist : String → Doc → Rat) (e : RAGEngine) (docs : List Doc)
    (question : String) (mc : Nat) (h : e.vectorstore = some docs)
    (hs : search dist e question mc = []) :
    get_context_for_question dist e question mc = "No relevant information found."
    ∧ "No relevant information found." ≠ ""
    ∧ "No relevant information found." ≠ "No rule documents loaded."
    ∧ (∀ e' : RAGEngine, e'.vectorstore = none →
        get_context_for_question dist e' question mc = "No rule documents loaded.")
    ∧ (search dist e question mc).length ≤ mc
    ∧ get_context_for_question dist e question
        = get_context_for_question dist e question 3 := by
  refine ⟨?_, by decide, by decide, ?_, ?_, rfl⟩
  · simp [get_context_for_question, h, hs]
  · intro e' he'
    simp [get_context_for_question, he']
  · rw [hs]
    simp

/-- Witness for C6 on an engine whose index exists and is empty. -/
theorem c6_witness :
    get_context_for_question dist0 ⟨"rules_documents", some []⟩ "q" 3
        = "No relevant information found."
    ∧ "No relevant information found." ≠ ""
    ∧ "No relevant information found." ≠ "No rule documents loaded."
    ∧ (∀ e' : RAGEngine, e'.vectorstore = none →
        get_context_for_question dist0 e' "q" 3 = "No rule documents loaded.")
    ∧ (search dist0 ⟨"rules_documents", some []⟩ "q" 3).length ≤ 3
    ∧ get_context_for_question dist0 ⟨"rules_documents", some []⟩ "q"
        = get_context_for_question dist0 ⟨"rules_documents", some []⟩ "q" 3 :=
  c6_sentinel dist0 ⟨"rules_documents", some []⟩ [] "q" 3 rfl
    (by simp [search, similarity_search_with_score])

/-- C7: during loading, an entry with an unsupported extension, or a supported
file whose loader raises, contributes nothing and aborts nothing — the load
outcome over the folder equals the outcome with that entry absent, so every
other file is still loaded. -/
theorem c7_per_file_isolation (lf : String → Except Unit (List Doc))
    (pre post : List String) (fn : String)
    (h : isSupported fn = false ∨ lf fn = Except.error ()) :
    load_files lf (pre ++ fn :: post) = load_files lf (pre ++ post) := by
  rw [load_files, load_files, List.foldl_append, List.foldl_append, List.foldl_cons,
    loadStep_id lf _ fn h]

/-- Witness for C7: a corrupt `bad.pdf` between two good files changes
nothing about the load of the others. -/
theorem c7_witness :
    load_files lf7 ["a.pdf", "bad.pdf", "b.txt"] = load_files lf7 ["a.pdf", "b.txt"] :=
  c7_per_file_isolation lf7 ["a.pdf"] ["b.txt"] "bad.pdf" (Or.inr rfl)

/-- C8: when the documents folder does not exist at construction, it is
created empty so the listing is empty, construction succeeds with the engine
in the no-index state (`vectorstore = None`); the result does not depend on
the chunker or on the embedding failure oracle (they are never invoked), and
every search on that engine returns the empty list. -/
theorem c8_missing_folder (dist : String → Doc → Rat) (entries : List String)
    (lf : String → Except Unit (List Doc)) (splitter : List Doc → List Doc)
    (fails : Nat → Nat → Bool) (folder : String) :
    initEngine false entries fails lf splitter folder = Except.ok ⟨folder, none⟩
    ∧ (∀ (splitter' : List Doc → List Doc) (fails' : Nat → Nat → Bool),
        initEngine false entries fails' lf splitter' folder = Except.ok ⟨folder, none⟩)
    ∧ ∀ (query : String) (k : Nat), search dist ⟨folder, none⟩ query k = [] :=
  ⟨rfl, fun _ _ => rfl, fun _ _ => rfl⟩

/-- C9: `search` reads only the vector index: two engines with the same
(unchanged) index give identical result sequences for the same query and
`k` — ties included, since the modelled FAISS ranking is a stable sort in
index-insertion order. -/
theorem c9_search_deterministic (dist : String → Doc → Rat) (e₁ e₂ : RAGEngine)
    (query : String) (k : Nat) (h : e₁.vectorstore = e₂.vectorstore) :
    search dist e₁ query k = search dist e₂ query k := by
  unfold search
  rw [h]

/-- Witness for C9: two engine values sharing the index (but not the folder
path) search identically. -/
theorem c9_witness :
    search dist0 ⟨"folder_a", some [dA]⟩ "gun" 3
      = search dist0 ⟨"folder_b", some [dA]⟩ "gun" 3 :=
  c9_search_deterministic dist0 ⟨"folder_a", some [dA]⟩ ⟨"folder_b", some [dA]⟩
    "gun" 3 rfl

/-- C10: `search` is total over result metadata — it returns one result per
returned neighbor (`min k` of the index size, never an error), and for each
result drawn from a document whose metadata lacks the `source` key the
source field is the string `Unknown`, and lacking the `page` key the page
field is the string `N/A`; the score is the document's numeric distance. -/
theorem c10_metadata_defaults (dist : String → Doc → Rat) (e : RAGEngine)
    (docs : List Doc) (query : String) (k : Nat) (h : e.vectorstore = some docs) :
    (search dist e query k).length = min k docs.length
    ∧ ∀ r ∈ search dist e query k, ∃ d ∈ docs,
        r.content = d.page_content ∧ r.score = dist query d
        ∧ (d.metadata.lookup "source" = none → r.source = MetaVal.str "Unknown")
        ∧ (d.metadata.lookup "page" = none → r.page = MetaVal.str "N/A") := by
  rw [search_some dist e docs query k h]
  constructor
  · rw [List.length_map, sss_length]
  · intro r hr
    rw [List.mem_map] at hr
    obtain ⟨p, hp, rfl⟩ := hr
    obtain ⟨hd, hs⟩ := sss_mem dist docs query k p hp
    refine ⟨p.1, hd, rfl, hs, fun hn => ?_, fun hn => ?_⟩
    · show metaGet p.1.metadata "source" (MetaVal.str "Unknown") = MetaVal.str "Unknown"
      rw [metaGet, hn]
      rfl
    · show metaGet p.1.metadata "page" (MetaVal.str "N/A") = MetaVal.str "N/A"
      rw [metaGet, hn]
      rfl

/-- Witness for C10 on a document with an empty metadata dict. -/
theorem c10_witness :
    (search dist0 ⟨"rules_documents", some [dB]⟩ "x" 3).length = min 3 [dB].length
    ∧ ∀ r ∈ search dist0 ⟨"rules_documents", some [dB]⟩ "x" 3, ∃ d ∈ [dB],
        r.content = d.page_content ∧ r.score = dist0 "x" d
        ∧ (d.metadata.lookup "source" = none → r.source = MetaVal.str "Unknown")
        ∧ (d.metadata.lookup "page" = none → r.page = MetaVal.str "N/A") :=
  c10_metadata_defaults dist0 ⟨"rules_documents", some [dB]⟩ [dB] "x" 3 rfl

end RagSpec
